import Mathlib

/-!
Shallow embedding of the device-protocol client and polling loop of the
LNS_Project repository (src/device/exceptions.py, src/device/udp_driver.py,
src/device/serial_driver.py, src/device/device_client.py and
src/scripts/device_monitor.py), together with theorems settling the
behavioural claims about it.

Python exceptions are modelled as values of an error type carried in
`Except`; a method that mutates `self` is modelled as a function from the
object state to a pair of the new state and the result; the outside world
(socket and serial line behaviour during one call) is passed in explicitly
as an environment value enumerating the outcomes the source distinguishes.
-/

/-- Error taxonomy of src/device/exceptions.py: `DeviceError` is the base
class, the other four are its subclasses.  Each carries the message that
`str(e)` would show. -/
inductive DevErr where
  | deviceError (msg : String)
  | connectionError (msg : String)
  | timeoutError (msg : String)
  | protocolError (msg : String)
  | commandError (msg : String)
deriving DecidableEq, Repr

/-- Python `str(e)`: the message the exception carries. -/
def DevErr.str : DevErr → String
  | .deviceError m => m
  | .connectionError m => m
  | .timeoutError m => m
  | .protocolError m => m
  | .commandError m => m

/-- True exactly on the `ConnectionError` class (what an
`except ConnectionError` clause catches). -/
def DevErr.isConnErr : DevErr → Bool
  | .connectionError _ => true
  | _ => false

/-- True exactly on the `TimeoutError` class. -/
def DevErr.isTimeoutErr : DevErr → Bool
  | .timeoutError _ => true
  | _ => false

/-- True exactly on the `ProtocolError` class. -/
def DevErr.isProtocolErr : DevErr → Bool
  | .protocolError _ => true
  | _ => false

/-- Decidable success test on `Except`. -/
def exceptOk {ε α : Type} : Except ε α → Bool
  | .ok _ => true
  | .error _ => false

/-- Python `str.isspace` on one character, for the ASCII whitespace the
wire protocol can carry. -/
def isPySpace (c : Char) : Bool :=
  c = ' ' || c = '\t' || c = '\n' || c = '\r'

/-- Python `str.strip()`: drop leading and trailing whitespace. -/
def pyStrip (s : String) : String :=
  String.mk (((s.data.dropWhile isPySpace).reverse.dropWhile isPySpace).reverse)

/-- Split a character list at every occurrence of `sep` (helper for
`pySplit`). -/
def splitChar (sep : Char) : List Char → List (List Char)
  | [] => [[]]
  | c :: cs =>
      if c = sep then [] :: splitChar sep cs
      else
        match splitChar sep cs with
        | [] => [[c]]
        | g :: gs => (c :: g) :: gs

/-- Python `str.split(sep)` for a one-character separator. -/
def pySplit (sep : Char) (s : String) : List String :=
  (splitChar sep s.data).map String.mk

/-- Python `str.startswith(head)`. -/
def pyStartsWith (s head : String) : Bool :=
  List.isPrefixOf head.data s.data

/-- Mutable state of a `UDPDriver` object (src/device/udp_driver.py):
`socketSome` models `self.socket is not None`, `is_connected` the
connection flag. -/
structure UDPState where
  host : String
  port : Nat
  socketSome : Bool
  is_connected : Bool
deriving DecidableEq, Repr

/-- Outcome of the socket interaction inside one `UDPDriver._send_command`
call: the `recvfrom` timed out, some other socket error was raised (with
its message), or a datagram arrived whose ignore-errors decoding is
`raw`. -/
inductive UdpWire where
  | recvTimeout
  | sockErr (msg : String)
  | datagram (raw : String)
deriving DecidableEq, Repr

/-- `UDPDriver._validate_response` (src/device/udp_driver.py lines
151-182): the response is accepted iff it is non-empty and starts with the
token after the command separator followed by an underscore
(`GET_V` expects `V_`). -/
def UDPDriver.validate_response (command response : String) : Bool :=
  if response = "" then false
  else
    match pySplit '_' command with
    | _ :: expected :: _ => pyStartsWith response (expected ++ "_")
    | _ => false

/-- `UDPDriver._send_command` (src/device/udp_driver.py lines 100-149).
Note the source control flow: a `ProtocolError` raised by the validation
check inside the `try` block is caught by the final `except Exception`
clause, which clears `is_connected` and re-raises it as a
`ConnectionError`; the `socket.timeout` clause re-raises a `TimeoutError`
without touching the flag, and the `UnicodeDecodeError` clause is
unreachable because decoding uses the ignore-errors mode. -/
def UDPDriver.send_command (s : UDPState) (command : String) (w : UdpWire) :
    UDPState × Except DevErr String :=
  if !s.socketSome then
    (s, .error (.connectionError "Сокет не инициализирован"))
  else if !s.is_connected then
    (s, .error (.connectionError "Устройство не подключено"))
  else
    match w with
    | .recvTimeout =>
        (s, .error (.timeoutError ("Таймаут при выполнении команды: " ++ command)))
    | .sockErr msg =>
        ({ s with is_connected := false },
         .error (.connectionError ("Ошибка связи: " ++ msg)))
    | .datagram raw =>
        let response := pyStrip raw
        if UDPDriver.validate_response command response then
          (s, .ok response)
        else
          ({ s with is_connected := false },
           .error (.connectionError
             ("Ошибка связи: " ++ "Неверный формат ответа: " ++ response)))

/-- `UDPDriver.get_voltage` (src/device/udp_driver.py lines 184-200):
sends `GET_V` and re-wraps any failure into a `DeviceError`. -/
def UDPDriver.get_voltage (s : UDPState) (w : UdpWire) :
    UDPState × Except DevErr String :=
  match UDPDriver.send_command s "GET_V" w with
  | (s1, .ok r) => (s1, .ok r)
  | (s1, .error e) =>
      (s1, .error (.deviceError ("Ошибка получения напряжения: " ++ e.str)))

/-- `UDPDriver.get_current` (src/device/udp_driver.py lines 202-217). -/
def UDPDriver.get_current (s : UDPState) (w : UdpWire) :
    UDPState × Except DevErr String :=
  match UDPDriver.send_command s "GET_A" w with
  | (s1, .ok r) => (s1, .ok r)
  | (s1, .error e) =>
      (s1, .error (.deviceError ("Ошибка получения тока: " ++ e.str)))

/-- `UDPDriver.get_serial` (src/device/udp_driver.py lines 219-234). -/
def UDPDriver.get_serial (s : UDPState) (w : UdpWire) :
    UDPState × Except DevErr String :=
  match UDPDriver.send_command s "GET_S" w with
  | (s1, .ok r) => (s1, .ok r)
  | (s1, .error e) =>
      (s1, .error (.deviceError ("Ошибка получения серийного номера: " ++ e.str)))

/-- Outcome of the socket interaction inside one `UDPDriver.connect` call:
socket creation failed, the probe `recvfrom` timed out, another exception
was raised during the probe, or a datagram arrived decoding to `raw`. -/
inductive UdpConnWire where
  | createErr (msg : String)
  | probeTimeout
  | probeErr (msg : String)
  | datagram (raw : String)
deriving DecidableEq, Repr

/-- `UDPDriver.connect` (src/device/udp_driver.py lines 41-98): creates the
socket, sets `is_connected` before the probe, sends `GET_S` and accepts
only a non-empty reply starting with `S_`.  Every failure raised inside
the inner `try` (the probe timeout included) is a `ConnectionError`, which
the outer `except Exception` clause wraps once more into a
`ConnectionError`. -/
def UDPDriver.connect (s : UDPState) (w : UdpConnWire) :
    UDPState × Except DevErr Bool :=
  match w with
  | .createErr msg =>
      ({ s with is_connected := false },
       .error (.connectionError ("Ошибка подключения: " ++ msg)))
  | .probeTimeout =>
      ({ s with socketSome := true, is_connected := false },
       .error (.connectionError ("Ошибка подключения: " ++
         "Таймаут подключения к " ++ s.host ++ ":" ++ toString s.port)))
  | .probeErr msg =>
      ({ s with socketSome := true, is_connected := false },
       .error (.connectionError ("Ошибка подключения: " ++
         "Ошибка тестового запроса: " ++ msg)))
  | .datagram raw =>
      let t := pyStrip raw
      if (!(t == "")) && pyStartsWith t "S_" then
        ({ s with socketSome := true, is_connected := true }, .ok true)
      else
        ({ s with socketSome := true, is_connected := false },
         .error (.connectionError ("Ошибка подключения: " ++
           "Неверный ответ от устройства: " ++ t)))

/-- `UDPDriver.disconnect` (src/device/udp_driver.py lines 236-248). -/
def UDPDriver.disconnect (s : UDPState) : UDPState :=
  { s with socketSome := false, is_connected := false }

/-- Mutable state of a `SerialDriver` object (src/device/serial_driver.py):
`connSome` models `self.serial_conn is not None`. -/
structure SerialState where
  port : String
  baudrate : Nat
  connSome : Bool
  is_connected : Bool
deriving DecidableEq, Repr

/-- Outcome of the line interaction inside one `SerialDriver._send_command`
call: a `serial.SerialException`, some other exception, or two `readline`
results (the second is used only when the first strips to empty). -/
inductive SerialWire where
  | serialExn (msg : String)
  | otherExn (msg : String)
  | lines (first second : String)
deriving DecidableEq, Repr

/-- `SerialDriver._send_command` (src/device/serial_driver.py lines
66-100): no response validation happens here; an empty first line is
retried once; only a `SerialException` clears `is_connected`, any other
exception leaves the flag untouched; both are re-raised as
`DeviceError`. -/
def SerialDriver.send_command (s : SerialState) (command : String) (w : SerialWire) :
    SerialState × Except DevErr String :=
  if !s.is_connected || !s.connSome then
    (s, .error (.connectionError "Устройство не подключено"))
  else
    match w with
    | .serialExn msg =>
        ({ s with is_connected := false },
         .error (.deviceError ("Ошибка связи: " ++ msg)))
    | .otherExn msg =>
        (s, .error (.deviceError ("Ошибка выполнения команды: " ++ msg)))
    | .lines first second =>
        let r1 := pyStrip first
        (s, .ok (if r1 = "" then pyStrip second else r1))

/-- `SerialDriver.get_voltage` (src/device/serial_driver.py lines
102-112): checks the `V_` head of the response and raises a `DeviceError`
otherwise; the surrounding `except Exception` re-wraps every failure into
a `DeviceError` once more. -/
def SerialDriver.get_voltage (s : SerialState) (w : SerialWire) :
    SerialState × Except DevErr String :=
  match SerialDriver.send_command s "GET_V" w with
  | (s1, .ok response) =>
      if pyStartsWith response "V_" then (s1, .ok response)
      else
        (s1, .error (.deviceError ("Ошибка получения напряжения: " ++
          "Неверный формат ответа напряжения: " ++ response)))
  | (s1, .error e) =>
      (s1, .error (.deviceError ("Ошибка получения напряжения: " ++ e.str)))

/-- `SerialDriver.get_current` (src/device/serial_driver.py lines 114-123). -/
def SerialDriver.get_current (s : SerialState) (w : SerialWire) :
    SerialState × Except DevErr String :=
  match SerialDriver.send_command s "GET_A" w with
  | (s1, .ok response) =>
      if pyStartsWith response "A_" then (s1, .ok response)
      else
        (s1, .error (.deviceError ("Ошибка получения тока: " ++
          "Неверный формат ответа тока: " ++ response)))
  | (s1, .error e) =>
      (s1, .error (.deviceError ("Ошибка получения тока: " ++ e.str)))

/-- `SerialDriver.get_serial` (src/device/serial_driver.py lines 125-134). -/
def SerialDriver.get_serial (s : SerialState) (w : SerialWire) :
    SerialState × Except DevErr String :=
  match SerialDriver.send_command s "GET_S" w with
  | (s1, .ok response) =>
      if pyStartsWith response "S_" then (s1, .ok response)
      else
        (s1, .error (.deviceError ("Ошибка получения серийного номера: " ++
          "Неверный формат ответа серийного номера: " ++ response)))
  | (s1, .error e) =>
      (s1, .error (.deviceError ("Ошибка получения серийного номера: " ++ e.str)))

/-- Outcome of opening the serial line in `SerialDriver.connect`
(src/device/serial_driver.py lines 28-64). -/
inductive SerialConnWire where
  | opened
  | serialExn (msg : String)
  | otherExn (msg : String)
deriving DecidableEq, Repr

/-- `SerialDriver.connect`: opens the line, settles, flushes stale bytes
and sets the flag; a `SerialException` or any other exception is raised as
`ConnectionError`. -/
def SerialDriver.connect (s : SerialState) (w : SerialConnWire) :
    SerialState × Except DevErr Bool :=
  match w with
  | .opened => ({ s with connSome := true, is_connected := true }, .ok true)
  | .serialExn msg =>
      (s, .error (.connectionError
        ("Не удалось подключиться к " ++ s.port ++ ": " ++ msg)))
  | .otherExn msg =>
      (s, .error (.connectionError ("Ошибка подключения: " ++ msg)))

/-- One reading of the device, `DeviceReading` of
src/device/device_client.py lines 49-65. -/
structure DeviceReading where
  timestamp : String
  voltage : String
  current : String
  serial : String
  status : String
  error : Option String
deriving DecidableEq, Repr

/-- State of a `DeviceClient` object that the claims depend on: its own
`is_connected` flag (src/device/device_client.py line 109). -/
structure ClientState where
  is_connected : Bool
deriving DecidableEq, Repr

/-- The ERROR reading `DeviceClient.get_reading` builds in its `except`
clause (src/device/device_client.py lines 186-193). -/
def errorReading (ts : String) (e : DevErr) : DeviceReading :=
  { timestamp := ts, voltage := "V_ERROR", current := "A_ERROR",
    serial := "S_ERROR", status := "ERROR", error := some e.str }

/-- `DeviceClient.get_reading` (src/device/device_client.py lines
151-193).  The driver is duck-typed in the source; here the outcomes its
three accessors would produce, in the fixed voltage-current-serial order,
are passed in as `v`, `a` and `sn` (a later one is consulted only when the
earlier ones succeed, matching the sequential calls cut short by the first
raise).  Outside the Connected state the method raises
`ConnectionError`; inside it, any accessor failure is swallowed into an
ERROR reading. -/
def DeviceClient.get_reading (c : ClientState) (ts : String)
    (v a sn : Except DevErr String) : Except DevErr DeviceReading :=
  if !c.is_connected then
    .error (.connectionError "Устройство не подключено")
  else
    match v with
    | .error e => .ok (errorReading ts e)
    | .ok vs =>
        match a with
        | .error e => .ok (errorReading ts e)
        | .ok cs =>
            match sn with
            | .error e => .ok (errorReading ts e)
            | .ok ss =>
                .ok { timestamp := ts, voltage := vs, current := cs,
                      serial := ss, status := "OK", error := none }

/-- `DeviceClient.get_voltage` (src/device/device_client.py lines
195-199): checks the flag first and only then consults the driver, whose
outcome is `dres`. -/
def DeviceClient.get_voltage (c : ClientState) (dres : Except DevErr String) :
    Except DevErr String :=
  if !c.is_connected then .error (.connectionError "Устройство не подключено")
  else dres

/-- `DeviceClient.get_current` (src/device/device_client.py lines 201-205). -/
def DeviceClient.get_current (c : ClientState) (dres : Except DevErr String) :
    Except DevErr String :=
  if !c.is_connected then .error (.connectionError "Устройство не подключено")
  else dres

/-- `DeviceClient.get_serial` (src/device/device_client.py lines 207-211). -/
def DeviceClient.get_serial (c : ClientState) (dres : Except DevErr String) :
    Except DevErr String :=
  if !c.is_connected then .error (.connectionError "Устройство не подключено")
  else dres

/-- `DeviceClient.disconnect` (src/device/device_client.py lines 144-149):
clears the client flag unconditionally. -/
def DeviceClient.disconnect (c : ClientState) : ClientState :=
  { c with is_connected := false }

/-- `DeviceClient.connect` (src/device/device_client.py lines 128-142):
assigns the driver's boolean result to `is_connected` and returns it; any
exception is re-raised as `ConnectionError` and leaves the flag as it
was. -/
def DeviceClient.connect (c : ClientState) (dres : Except DevErr Bool) :
    ClientState × Except DevErr Bool :=
  match dres with
  | .ok b => ({ c with is_connected := b }, .ok b)
  | .error e =>
      (c, .error (.connectionError ("Ошибка подключения: " ++ e.str)))

/-- JSON values as far as the log file needs them (json module usage in
src/scripts/device_monitor.py). -/
inductive Json where
  | null
  | str (s : String)
  | num (n : Int)
  | arr (xs : List Json)
  | obj (fields : List (String × Json))

/-- Parse outcome of reading the live log file in
`DeviceMonitor._log_reading` (src/scripts/device_monitor.py lines
192-205): the file is absent, holds only whitespace, fails `json.loads`,
or parses to a value. -/
inductive FileContent where
  | absent
  | blank
  | corrupt (raw : String)
  | jsonVal (v : Json)

/-- The list the read side of `DeviceMonitor._log_reading` produces: `[]`
for an absent, blank or undecodable file; the parsed list for an array;
and the one-element wrap `[data]` for any other parsed value (the
`data = [data] if content else []` line, where `content` is non-empty
whenever parsing succeeded). -/
def readLogData : FileContent → List Json
  | .absent => []
  | .blank => []
  | .corrupt _ => []
  | .jsonVal (.arr xs) => xs
  | .jsonVal v => [v]

/-- Write side of `DeviceMonitor._log_reading` (src/scripts/device_monitor.py
lines 192-212): read, append one reading, rewrite the whole array. -/
def DeviceMonitor.log_reading (fc : FileContent) (reading : Json) : FileContent :=
  .jsonVal (.arr (readLogData fc ++ [reading]))

/-- N successive `_log_reading` calls. -/
def DeviceMonitor.logAppends (fc : FileContent) : List Json → FileContent
  | [] => fc
  | r :: rs => DeviceMonitor.logAppends (DeviceMonitor.log_reading fc r) rs

/-- A directory as a map from file name to content; `none` means the file
does not exist. -/
def FS := String → Option String

/-- Python `os.path.exists`. -/
def FS.exists_ (fs : FS) (n : String) : Bool := (fs n).isSome

/-- Python `os.remove`. -/
def FS.remove (fs : FS) (n : String) : FS :=
  fun m => if m = n then none else fs m

/-- Python `os.rename a b`: `b` receives the content of `a`, `a` is gone. -/
def FS.rename (fs : FS) (a b : String) : FS :=
  fun m => if m = b then fs a else if m = a then none else fs m

/-- One iteration of the rotation loop of `DeviceMonitor._rotate_log_file`
(src/scripts/device_monitor.py lines 229-235) at index `i`: if
`log_file.i` exists it is deleted when `i = max_files - 1` and renamed to
`log_file.(i+1)` otherwise. -/
def rotateStep (log_file : String) (max_files : Nat) (fs : FS) (i : Nat) : FS :=
  if (fs (log_file ++ "." ++ toString i)).isSome then
    if i = max_files - 1 then fs.remove (log_file ++ "." ++ toString i)
    else fs.rename (log_file ++ "." ++ toString i) (log_file ++ "." ++ toString (i + 1))
  else fs

/-- The index sequence of Python `range(max_files - 1, 0, -1)`. -/
def rotateIdx (max_files : Nat) : List Nat :=
  ((List.range (max_files - 1)).map (· + 1)).reverse

/-- `DeviceMonitor._rotate_log_file` (src/scripts/device_monitor.py lines
219-242): the downward shift loop, then the live file is renamed to
`log_file.1` when it exists. -/
def DeviceMonitor.rotate_log_file (fs : FS) (log_file : String) (max_files : Nat) : FS :=
  let fs1 := (rotateIdx max_files).foldl (rotateStep log_file max_files) fs
  if (fs1 log_file).isSome then FS.rename fs1 log_file (log_file ++ ".1") else fs1

/-- What one iteration of `DeviceMonitor.run` observes from its
`self.device.get_reading()` call (src/scripts/device_monitor.py lines
268-296): a reading returned normally, a raised `ConnectionError` (with
message), or any other raised exception (with message). -/
inductive CycleEvent where
  | reading (r : DeviceReading)
  | connLost (msg : String)
  | otherExn (msg : String)

/-- One line sent to the monitor logger, with its level. -/
inductive LogLine where
  | info (s : String)
  | warn (s : String)
  | err (s : String)
deriving DecidableEq, Repr

/-- Python `f"{x}"` on an optional string field (`None` shows as the text
`None`). -/
def optShow : Option String → String
  | none => "None"
  | some s => s

/-- A `DeviceReading.to_dict()` as the JSON object `_log_reading`
receives. -/
def readingJson (r : DeviceReading) : Json :=
  .obj [("timestamp", .str r.timestamp), ("voltage", .str r.voltage),
        ("current", .str r.current), ("serial", .str r.serial),
        ("status", .str r.status),
        ("error", match r.error with | none => .null | some s => .str s)]

/-- Body of one iteration of the monitor loop (src/scripts/device_monitor.py
lines 268-296), given the event of the `get_reading` call: the updated log
file, the console log lines, and whether the loop continues.  A normal
reading is appended to the log file, then reported at info level when its
status is `OK` and at warning level otherwise; a raised `ConnectionError`
logs two error lines and breaks; any other exception logs one error line
and continues. -/
def DeviceMonitor.cycle (fc : FileContent) (ev : CycleEvent) :
    FileContent × List LogLine × Bool :=
  match ev with
  | .reading r =>
      (DeviceMonitor.log_reading fc (readingJson r),
       if r.status = "OK" then
         [.info ("Показания: " ++ r.voltage ++ ", " ++ r.current ++
           ", SN: " ++ r.serial)]
       else
         [.warn ("Ошибка: " ++ optShow r.error ++ " | Показания: " ++
           r.voltage ++ ", " ++ r.current)],
       true)
  | .connLost msg =>
      (fc,
       [.err ("КРИТИЧЕСКАЯ ОШИБКА: Потеряно соединение с устройством: " ++ msg),
        .err "Завершение работы согласно требованиям спецификации"],
       false)
  | .otherExn msg =>
      (fc, [.err ("Ошибка в цикле мониторинга: " ++ msg)], true)

/-- The `while self.is_running` loop of `DeviceMonitor.run` over a list of
cycle events (the list ending models `is_running` turning false): each
cycle runs `DeviceMonitor.cycle` and the loop goes on only while the cycle
did not break. -/
def DeviceMonitor.runCycles (fc : FileContent) : List CycleEvent → FileContent × List LogLine
  | [] => (fc, [])
  | ev :: rest =>
      match DeviceMonitor.cycle fc ev with
      | (fc1, logs, cont) =>
          if cont then
            match DeviceMonitor.runCycles fc1 rest with
            | (fc2, logs2) => (fc2, logs ++ logs2)
          else (fc1, logs)

/-- The inter-cycle pause of `DeviceMonitor.run`
(src/scripts/device_monitor.py line 300):
`sleep_time = max(0.1, period - cycle_time)`. -/
def DeviceMonitor.sleep_time (period cycle_time : ℚ) : ℚ :=
  max (1 / 10) (period - cycle_time)

/-- A concrete connected UDP driver state (default host and port of
src/device/udp_driver.py). -/
def udpConn : UDPState :=
  { host := "127.0.0.1", port := 10000, socketSome := true, is_connected := true }

/-- A concrete connected serial driver state (default port and baud rate of
src/device/serial_driver.py). -/
def serConn : SerialState :=
  { port := "ttyACM0", baudrate := 115200, connSome := true, is_connected := true }

/-- A concrete directory holding a live log file and three rotated
siblings. -/
def fsFour : FS := fun n =>
  if n = "device_data.json" then some "live"
  else if n = "device_data.json.1" then some "old1"
  else if n = "device_data.json.2" then some "old2"
  else if n = "device_data.json.3" then some "old3"
  else none

/-- A string with a non-empty left append part is non-empty. -/
theorem append_ne_empty (s t : String) (h : s ≠ "") : s ++ t ≠ "" := by
  intro hEq
  apply h
  apply String.ext
  have hd : s.data ++ t.data = [] := by
    have h2 := congrArg String.data hEq
    rwa [String.data_append] at h2
  exact (List.append_eq_nil.mp hd).1

/-- Every error out of `UDPDriver.get_voltage` carries a non-empty
message. -/
theorem udp_get_voltage_msg (s : UDPState) (w : UdpWire) (e : DevErr)
    (h : (UDPDriver.get_voltage s w).2 = Except.error e) : DevErr.str e ≠ "" := by
  unfold UDPDriver.get_voltage at h
  rcases hs : UDPDriver.send_command s "GET_V" w with ⟨s1, r⟩
  rw [hs] at h
  cases r with
  | ok v => simp at h
  | error e0 =>
      simp at h
      subst h
      exact append_ne_empty _ _ (by decide)

/-- Every error out of `UDPDriver.get_current` carries a non-empty
message. -/
theorem udp_get_current_msg (s : UDPState) (w : UdpWire) (e : DevErr)
    (h : (UDPDriver.get_current s w).2 = Except.error e) : DevErr.str e ≠ "" := by
  unfold UDPDriver.get_current at h
  rcases hs : UDPDriver.send_command s "GET_A" w with ⟨s1, r⟩
  rw [hs] at h
  cases r with
  | ok v => simp at h
  | error e0 =>
      simp at h
      subst h
      exact append_ne_empty _ _ (by decide)

/-- Every error out of `UDPDriver.get_serial` carries a non-empty
message. -/
theorem udp_get_serial_msg (s : UDPState) (w : UdpWire) (e : DevErr)
    (h : (UDPDriver.get_serial s w).2 = Except.error e) : DevErr.str e ≠ "" := by
  unfold UDPDriver.get_serial at h
  rcases hs : UDPDriver.send_command s "GET_S" w with ⟨s1, r⟩
  rw [hs] at h
  cases r with
  | ok v => simp at h
  | error e0 =>
      simp at h
      subst h
      exact append_ne_empty _ _ (by decide)

/-- Every error out of `SerialDriver.get_voltage` carries a non-empty
message. -/
theorem serial_get_voltage_msg (s : SerialState) (w : SerialWire) (e : DevErr)
    (h : (SerialDriver.get_voltage s w).2 = Except.error e) : DevErr.str e ≠ "" := by
  unfold SerialDriver.get_voltage at h
  rcases hs : SerialDriver.send_command s "GET_V" w with ⟨s1, r⟩
  rw [hs] at h
  cases r with
  | ok v =>
      by_cases hv : pyStartsWith v "V_"
      · simp [hv] at h
      · simp [hv] at h
        subst h
        exact append_ne_empty _ _ (by decide)
  | error e0 =>
      simp at h
      subst h
      exact append_ne_empty _ _ (by decide)

/-- Every error out of `SerialDriver.get_current` carries a non-empty
message. -/
theorem serial_get_current_msg (s : SerialState) (w : SerialWire) (e : DevErr)
    (h : (SerialDriver.get_current s w).2 = Except.error e) : DevErr.str e ≠ "" := by
  unfold SerialDriver.get_current at h
  rcases hs : SerialDriver.send_command s "GET_A" w with ⟨s1, r⟩
  rw [hs] at h
  cases r with
  | ok v =>
      by_cases hv : pyStartsWith v "A_"
      · simp [hv] at h
      · simp [hv] at h
        subst h
        exact append_ne_empty _ _ (by decide)
  | error e0 =>
      simp at h
      subst h
      exact append_ne_empty _ _ (by decide)

/-- Every error out of `SerialDriver.get_serial` carries a non-empty
message. -/
theorem serial_get_serial_msg (s : SerialState) (w : SerialWire) (e : DevErr)
    (h : (SerialDriver.get_serial s w).2 = Except.error e) : DevErr.str e ≠ "" := by
  unfold SerialDriver.get_serial at h
  rcases hs : SerialDriver.send_command s "GET_S" w with ⟨s1, r⟩
  rw [hs] at h
  cases r with
  | ok v =>
      by_cases hv : pyStartsWith v "S_"
      · simp [hv] at h
      · simp [hv] at h
        subst h
        exact append_ne_empty _ _ (by decide)
  | error e0 =>
      simp at h
      subst h
      exact append_ne_empty _ _ (by decide)

/-- Connected `get_reading` on a first-accessor failure. -/
theorem get_reading_err1 (ts : String) (e : DevErr) (a sn : Except DevErr String) :
    DeviceClient.get_reading ⟨true⟩ ts (.error e) a sn = .ok (errorReading ts e) := rfl

/-- Connected `get_reading` on a second-accessor failure. -/
theorem get_reading_err2 (ts vs : String) (e : DevErr) (sn : Except DevErr String) :
    DeviceClient.get_reading ⟨true⟩ ts (.ok vs) (.error e) sn = .ok (errorReading ts e) := rfl

/-- Connected `get_reading` on a third-accessor failure. -/
theorem get_reading_err3 (ts vs cs : String) (e : DevErr) :
    DeviceClient.get_reading ⟨true⟩ ts (.ok vs) (.ok cs) (.error e) =
      .ok (errorReading ts e) := rfl

/-- Connected `get_reading` when all three accessors succeed. -/
theorem get_reading_ok (ts vs cs ss : String) :
    DeviceClient.get_reading ⟨true⟩ ts (.ok vs) (.ok cs) (.ok ss) =
      .ok ⟨ts, vs, cs, ss, "OK", none⟩ := rfl

/-- C1: in the Connected state `DeviceClient.get_reading` never raises:
when all three driver accessors (issued in the voltage, current, serial
order, a later one only after the earlier succeed) return values it
produces an OK reading carrying them with no error field, and on the first
accessor failure it produces an ERROR reading with the three sentinel
tokens and the captured message; the error field is present exactly when
the status is ERROR; and every failure either driver's accessors can hand
the client carries a non-empty message, so the captured message is
non-empty. -/
theorem c1_get_reading_total :
    (∀ (ts : String) (v a sn : Except DevErr String),
      ∃ r : DeviceReading,
        DeviceClient.get_reading ⟨true⟩ ts v a sn = Except.ok r ∧
        (r.error.isSome ↔ r.status = "ERROR") ∧
        (∀ vs cs ss, v = Except.ok vs → a = Except.ok cs → sn = Except.ok ss →
          r = ⟨ts, vs, cs, ss, "OK", none⟩) ∧
        (∀ e, (v = Except.error e ∨
               (exceptOk v = true ∧ a = Except.error e) ∨
               (exceptOk v = true ∧ exceptOk a = true ∧ sn = Except.error e)) →
          r = errorReading ts e ∧ r.status = "ERROR" ∧ r.voltage = "V_ERROR" ∧
          r.current = "A_ERROR" ∧ r.serial = "S_ERROR" ∧ r.error = some e.str)) ∧
    (∀ (s : UDPState) (w : UdpWire) (e : DevErr),
      ((UDPDriver.get_voltage s w).2 = Except.error e ∨
       (UDPDriver.get_current s w).2 = Except.error e ∨
       (UDPDriver.get_serial s w).2 = Except.error e) → DevErr.str e ≠ "") ∧
    (∀ (s : SerialState) (w : SerialWire) (e : DevErr),
      ((SerialDriver.get_voltage s w).2 = Except.error e ∨
       (SerialDriver.get_current s w).2 = Except.error e ∨
       (SerialDriver.get_serial s w).2 = Except.error e) → DevErr.str e ≠ "") := by
  refine ⟨?_, ?_, ?_⟩
  · intro ts v a sn
    cases v with
    | error e =>
        refine ⟨errorReading ts e, get_reading_err1 ts e a sn, by simp [errorReading], ?_, ?_⟩
        · intro vs cs ss hv
          simp at hv
        · rintro e' (he' | ⟨hok, _⟩ | ⟨hok, _, _⟩)
          · injection he' with h
            subst h
            exact ⟨rfl, rfl, rfl, rfl, rfl, rfl⟩
          · simp [exceptOk] at hok
          · simp [exceptOk] at hok
    | ok vs =>
        cases a with
        | error e =>
            refine ⟨errorReading ts e, get_reading_err2 ts vs e sn,
              by simp [errorReading], ?_, ?_⟩
            · intro vs' cs ss _ ha
              simp at ha
            · rintro e' (he' | ⟨_, he'⟩ | ⟨_, hok, _⟩)
              · simp at he'
              · injection he' with h
                subst h
                exact ⟨rfl, rfl, rfl, rfl, rfl, rfl⟩
              · simp [exceptOk] at hok
        | ok cs =>
            cases sn with
            | error e =>
                refine ⟨errorReading ts e, get_reading_err3 ts vs cs e,
                  by simp [errorReading], ?_, ?_⟩
                · intro vs' cs' ss _ _ hsn
                  simp at hsn
                · rintro e' (he' | ⟨_, he'⟩ | ⟨_, _, he'⟩)
                  · simp at he'
                  · simp at he'
                  · injection he' with h
                    subst h
                    exact ⟨rfl, rfl, rfl, rfl, rfl, rfl⟩
            | ok ss =>
                refine ⟨⟨ts, vs, cs, ss, "OK", none⟩, get_reading_ok ts vs cs ss,
                  by simp, ?_, ?_⟩
                · intro vs' cs' ss' hv ha hsn
                  injection hv with h1
                  injection ha with h2
                  injection hsn with h3
                  subst h1; subst h2; subst h3
                  rfl
                · rintro e' (he' | ⟨_, he'⟩ | ⟨_, _, he'⟩) <;> simp at he'
  · intro s w e he
    rcases he with h | h | h
    · exact udp_get_voltage_msg s w e h
    · exact udp_get_current_msg s w e h
    · exact udp_get_serial_msg s w e h
  · intro s w e he
    rcases he with h | h | h
    · exact serial_get_voltage_msg s w e h
    · exact serial_get_current_msg s w e h
    · exact serial_get_serial_msg s w e h

/-- C2 counterexample: on the datagram transport in the connected state,
the command `GET_V` answered by `X_12` (wrong head token) is rejected, but
the exchange raises `ConnectionError`, not `ProtocolError`: the
`ProtocolError` raised by the validation check is caught by the blanket
`except Exception` clause of `_send_command` and re-raised as
`ConnectionError`. -/
theorem c2_counterexample :
    (UDPDriver.send_command udpConn "GET_V" (UdpWire.datagram "X_12")).2 =
      Except.error (DevErr.connectionError "Ошибка связи: Неверный формат ответа: X_12") ∧
    ¬ ∃ m, (UDPDriver.send_command udpConn "GET_V" (UdpWire.datagram "X_12")).2 =
      Except.error (DevErr.protocolError m) := by
  constructor
  · rfl
  · rintro ⟨m, hm⟩
    rw [show (UDPDriver.send_command udpConn "GET_V" (UdpWire.datagram "X_12")).2 =
      Except.error (DevErr.connectionError "Ошибка связи: Неверный формат ответа: X_12")
      from rfl] at hm
    simp at hm

/-- C2 (amended): for each of the three commands an empty or wrong-head
response is always rejected, never returned as accepted, on both
transports; on the datagram transport the rejection surfaces as
`ConnectionError` (the validation `ProtocolError` is re-wrapped by the
blanket handler), and on the serial transport as `DeviceError` — not as
`ProtocolError`.  The first group characterises the validation rule per
command; the second states that every accepted datagram exchange passed
validation; the third gives the error the datagram exchange raises on a
malformed response; the fourth states that every accepted serial accessor
result has the right head token; the fifth gives the error the serial
accessor raises on a malformed response. -/
theorem c2_malformed_always_rejected :
    (∀ response : String,
      UDPDriver.validate_response "GET_V" response =
        (!(response == "") && pyStartsWith response "V_") ∧
      UDPDriver.validate_response "GET_A" response =
        (!(response == "") && pyStartsWith response "A_") ∧
      UDPDriver.validate_response "GET_S" response =
        (!(response == "") && pyStartsWith response "S_")) ∧
    (∀ (s : UDPState) (command : String) (w : UdpWire) (res : String),
      (UDPDriver.send_command s command w).2 = Except.ok res →
      UDPDriver.validate_response command res = true) ∧
    (∀ (s : UDPState) (command raw : String),
      s.socketSome = true → s.is_connected = true →
      UDPDriver.validate_response command (pyStrip raw) = false →
      (UDPDriver.send_command s command (UdpWire.datagram raw)).2 =
        Except.error (DevErr.connectionError
          ("Ошибка связи: " ++ "Неверный формат ответа: " ++ pyStrip raw))) ∧
    (∀ (s : SerialState) (w : SerialWire) (res : String),
      ((SerialDriver.get_voltage s w).2 = Except.ok res →
        pyStartsWith res "V_" = true) ∧
      ((SerialDriver.get_current s w).2 = Except.ok res →
        pyStartsWith res "A_" = true) ∧
      ((SerialDriver.get_serial s w).2 = Except.ok res →
        pyStartsWith res "S_" = true)) ∧
    (∀ (s : SerialState) (l1 l2 : String),
      s.is_connected = true → s.connSome = true →
      pyStartsWith (if pyStrip l1 = "" then pyStrip l2 else pyStrip l1) "V_" = false →
      (SerialDriver.get_voltage s (SerialWire.lines l1 l2)).2 =
        Except.error (DevErr.deviceError ("Ошибка получения напряжения: " ++
          "Неверный формат ответа напряжения: " ++
          (if pyStrip l1 = "" then pyStrip l2 else pyStrip l1)))) := by
  refine ⟨?_, ?_, ?_, ?_, ?_⟩
  · intro response
    refine ⟨?_, ?_, ?_⟩
    · by_cases h : response = ""
      · simp [UDPDriver.validate_response, h]
      · simp only [UDPDriver.validate_response, if_neg h]
        rw [show pySplit '_' "GET_V" = ["GET", "V"] from rfl]
        simp [h, show ("V" ++ "_" : String) = "V_" from rfl]
    · by_cases h : response = ""
      · simp [UDPDriver.validate_response, h]
      · simp only [UDPDriver.validate_response, if_neg h]
        rw [show pySplit '_' "GET_A" = ["GET", "A"] from rfl]
        simp [h, show ("A" ++ "_" : String) = "A_" from rfl]
    · by_cases h : response = ""
      · simp [UDPDriver.validate_response, h]
      · simp only [UDPDriver.validate_response, if_neg h]
        rw [show pySplit '_' "GET_S" = ["GET", "S"] from rfl]
        simp [h, show ("S" ++ "_" : String) = "S_" from rfl]
  · intro s command w res h
    unfold UDPDriver.send_command at h
    by_cases h1 : s.socketSome
    · by_cases h2 : s.is_connected
      · simp [h1, h2] at h
        cases w with
        | recvTimeout => simp at h
        | sockErr m => simp at h
        | datagram raw =>
            by_cases hv : UDPDriver.validate_response command (pyStrip raw)
            · simp [hv] at h
              subst h
              exact hv
            · simp [hv] at h
      · simp [h1, h2] at h
    · simp [h1] at h
  · intro s command raw h1 h2 hv
    unfold UDPDriver.send_command
    simp [h1, h2, hv]
  · intro s w res
    refine ⟨?_, ?_, ?_⟩
    · intro h
      unfold SerialDriver.get_voltage at h
      rcases hs : SerialDriver.send_command s "GET_V" w with ⟨s1, r⟩
      rw [hs] at h
      cases r with
      | ok v =>
          by_cases hv : pyStartsWith v "V_"
          · simp [hv] at h
            subst h
            exact hv
          · simp [hv] at h
      | error e0 => simp at h
    · intro h
      unfold SerialDriver.get_current at h
      rcases hs : SerialDriver.send_command s "GET_A" w with ⟨s1, r⟩
      rw [hs] at h
      cases r with
      | ok v =>
          by_cases hv : pyStartsWith v "A_"
          · simp [hv] at h
            subst h
            exact hv
          · simp [hv] at h
      | error e0 => simp at h
    · intro h
      unfold SerialDriver.get_serial at h
      rcases hs : SerialDriver.send_command s "GET_S" w with ⟨s1, r⟩
      rw [hs] at h
      cases r with
      | ok v =>
          by_cases hv : pyStartsWith v "S_"
          · simp [hv] at h
            subst h
            exact hv
          · simp [hv] at h
      | error e0 => simp at h
  · intro s l1 l2 h1 h2 hv
    unfold SerialDriver.get_voltage SerialDriver.send_command
    simp [h1, h2, hv]

/-- C3: in the monitor loop a raised `ConnectionError` ends the run at
once (the remaining cycles never execute), a normally returned reading —
an ERROR-status one included — lets the loop continue, with an
ERROR-status reading logged as one warning line, and any other raised
exception is logged as one error line and the loop continues; a cycle
breaks the loop exactly when its event is a raised `ConnectionError`. -/
theorem c3_monitor_fatal_branch :
    (∀ (fc : FileContent) (m : String) (rest : List CycleEvent),
      DeviceMonitor.runCycles fc (CycleEvent.connLost m :: rest) =
        (fc, (DeviceMonitor.cycle fc (CycleEvent.connLost m)).2.1)) ∧
    (∀ (fc : FileContent) (r : DeviceReading) (rest : List CycleEvent),
      DeviceMonitor.runCycles fc (CycleEvent.reading r :: rest) =
        ((DeviceMonitor.runCycles (DeviceMonitor.log_reading fc (readingJson r)) rest).1,
         (DeviceMonitor.cycle fc (CycleEvent.reading r)).2.1 ++
           (DeviceMonitor.runCycles (DeviceMonitor.log_reading fc (readingJson r)) rest).2)) ∧
    (∀ (fc : FileContent) (m : String) (rest : List CycleEvent),
      DeviceMonitor.runCycles fc (CycleEvent.otherExn m :: rest) =
        ((DeviceMonitor.runCycles fc rest).1,
         LogLine.err ("Ошибка в цикле мониторинга: " ++ m) ::
           (DeviceMonitor.runCycles fc rest).2)) ∧
    (∀ (fc : FileContent) (r : DeviceReading), r.status ≠ "OK" →
      (DeviceMonitor.cycle fc (CycleEvent.reading r)).2 =
        ([LogLine.warn ("Ошибка: " ++ optShow r.error ++ " | Показания: " ++
           r.voltage ++ ", " ++ r.current)], true)) ∧
    (∀ (fc : FileContent) (ev : CycleEvent),
      (DeviceMonitor.cycle fc ev).2.2 = false ↔ ∃ m, ev = CycleEvent.connLost m) := by
  refine ⟨?_, ?_, ?_, ?_, ?_⟩
  · intro fc m rest
    rfl
  · intro fc r rest
    show (match DeviceMonitor.cycle fc (CycleEvent.reading r) with
      | (fc1, logs, cont) =>
          if cont then
            match DeviceMonitor.runCycles fc1 rest with
            | (fc2, logs2) => (fc2, logs ++ logs2)
          else (fc1, logs)) = _
    rcases hr : DeviceMonitor.runCycles (DeviceMonitor.log_reading fc (readingJson r)) rest
      with ⟨fc2, logs2⟩
    simp [DeviceMonitor.cycle, hr]
  · intro fc m rest
    show (match DeviceMonitor.cycle fc (CycleEvent.otherExn m) with
      | (fc1, logs, cont) =>
          if cont then
            match DeviceMonitor.runCycles fc1 rest with
            | (fc2, logs2) => (fc2, logs ++ logs2)
          else (fc1, logs)) = _
    rcases hr : DeviceMonitor.runCycles fc rest with ⟨fc2, logs2⟩
    simp [DeviceMonitor.cycle, hr]
  · intro fc r h
    simp [DeviceMonitor.cycle, h]
  · intro fc ev
    cases ev with
    | reading r => simp [DeviceMonitor.cycle]
    | connLost m => simp [DeviceMonitor.cycle]
    | otherExn m => simp [DeviceMonitor.cycle]

/-- Appending to a common front part is injective. -/
theorem append_cancel_left_str (F a b : String) (h : F ++ a = F ++ b) : a = b := by
  apply String.ext
  have hd := congrArg String.data h
  rw [String.data_append, String.data_append] at hd
  exact List.append_cancel_left hd

/-- Different suffixes give different file names. -/
theorem ne_append_of_ne (F : String) {a b : String} (h : a ≠ b) : F ++ a ≠ F ++ b :=
  fun hEq => h (append_cancel_left_str F a b hEq)

/-- A file name differs from itself with a non-empty suffix appended. -/
theorem self_ne_append (F s : String) (h : s ≠ "") : F ≠ F ++ s := by
  intro hEq
  apply h
  apply String.ext
  have hd := congrArg String.data hEq
  rw [String.data_append] at hd
  have hlen := congrArg List.length hd
  rw [List.length_append] at hlen
  have hz : s.data.length = 0 := by omega
  exact List.eq_nil_of_length_eq_zero hz

/-- The loop name `F ++ "." ++ toString 1` is the sibling name `F.1`. -/
theorem dotName1 (F : String) : F ++ "." ++ toString (1 : Nat) = F ++ ".1" := by
  apply String.ext
  rw [String.data_append, String.data_append, String.data_append, List.append_assoc]
  rfl

/-- The loop name `F ++ "." ++ toString 2` is the sibling name `F.2`. -/
theorem dotName2 (F : String) : F ++ "." ++ toString (2 : Nat) = F ++ ".2" := by
  apply String.ext
  rw [String.data_append, String.data_append, String.data_append, List.append_assoc]
  rfl

/-- Pointwise effect of the rotation loop iteration at index 2 with
`max_files = 3`: `F.2` is deleted (`2 = max_files - 1`), everything else
is untouched. -/
theorem rotateStep2_eval (F : String) (fs : FS) (m : String) :
    rotateStep F 3 fs 2 m = if m = F ++ ".2" then none else fs m := by
  by_cases h : (fs (F ++ ".2")).isSome
  · simp [rotateStep, dotName2, h, FS.remove]
  · simp [rotateStep, dotName2, h]
    by_cases hm : m = F ++ ".2"
    · subst hm
      simp [Option.not_isSome_iff_eq_none.mp h]
    · simp [hm]

/-- Pointwise effect of the rotation loop iteration at index 1 with
`max_files = 3`, on a directory where `F.2` is already gone: `F.1` moves
to `F.2`. -/
theorem rotateStep1_eval (F : String) (fs : FS) (h2 : fs (F ++ ".2") = none) (m : String) :
    rotateStep F 3 fs 1 m =
      if m = F ++ ".2" then fs (F ++ ".1")
      else if m = F ++ ".1" then none else fs m := by
  by_cases h1 : (fs (F ++ ".1")).isSome
  · simp [rotateStep, dotName1, dotName2, h1, FS.rename]
  · have h1n : fs (F ++ ".1") = none := Option.not_isSome_iff_eq_none.mp h1
    simp [rotateStep, dotName1, h1]
    by_cases hm2 : m = F ++ ".2"
    · subst hm2
      simp [h2, h1n]
    · by_cases hm1 : m = F ++ ".1"
      · subst hm1
        simp [hm2, h1n]
      · simp [hm2, hm1]

/-- Pointwise effect of the final rename of the rotation, on a directory
where `F.1` is already gone: the live file `F` moves to `F.1`. -/
theorem rotateFinal_eval (F : String) (fs : FS) (h1 : fs (F ++ ".1") = none) (m : String) :
    (if (fs F).isSome then FS.rename fs F (F ++ ".1") else fs) m =
      if m = F ++ ".1" then fs F else if m = F then none else fs m := by
  by_cases hF : (fs F).isSome
  · simp [hF, FS.rename]
  · have hFn : fs F = none := Option.not_isSome_iff_eq_none.mp hF
    simp [hF]
    by_cases hm1 : m = F ++ ".1"
    · subst hm1
      simp [h1, hFn]
    · by_cases hm : m = F
      · subst hm
        simp [hm1, hFn]
      · simp [hm1, hm]

/-- C4 counterexample: rotating a live file with `max_log_files = 3` over
a directory that holds `F`, `F.1`, `F.2` and `F.3` leaves `F.3` exactly as
it was — the claim requires the prior `F.2` to become `F.3` and the prior
`F.3` to be deleted, but the code deletes `F.2` (`i = max_files - 1`) and
never touches `F.3`. -/
theorem c4_counterexample :
    DeviceMonitor.rotate_log_file fsFour "device_data.json" 3 "device_data.json.3" =
      some "old3" ∧
    DeviceMonitor.rotate_log_file fsFour "device_data.json" 3 "device_data.json.3" ≠
      none := by
  constructor
  · rfl
  · intro h
    rw [show DeviceMonitor.rotate_log_file fsFour "device_data.json" 3 "device_data.json.3" =
      some "old3" from rfl] at h
    simp at h

/-- C4 (amended): with `max_log_files = 3` one rotation renames the prior
live file `F` to `F.1` and the prior `F.1` to `F.2`, deletes the prior
`F.2` (the index `max_files - 1` of the loop), leaves a prior `F.3` — and
every name outside `F`, `F.1`, `F.2` — untouched, and leaves the live
name `F` absent (recreated on the next write). -/
theorem c4_rotation_shift :
    ∀ (fs : FS) (F : String),
      DeviceMonitor.rotate_log_file fs F 3 F = none ∧
      DeviceMonitor.rotate_log_file fs F 3 (F ++ ".1") = fs F ∧
      DeviceMonitor.rotate_log_file fs F 3 (F ++ ".2") = fs (F ++ ".1") ∧
      DeviceMonitor.rotate_log_file fs F 3 (F ++ ".3") = fs (F ++ ".3") ∧
      (∀ n, n ≠ F → n ≠ F ++ ".1" → n ≠ F ++ ".2" →
        DeviceMonitor.rotate_log_file fs F 3 n = fs n) := by
  intro fs F
  have hIdx : rotateIdx 3 = [2, 1] := rfl
  have hrot : ∀ m, DeviceMonitor.rotate_log_file fs F 3 m =
      (if ((rotateStep F 3 (rotateStep F 3 fs 2) 1) F).isSome
       then FS.rename (rotateStep F 3 (rotateStep F 3 fs 2) 1) F (F ++ ".1")
       else rotateStep F 3 (rotateStep F 3 fs 2) 1) m := by
    intro m
    simp [DeviceMonitor.rotate_log_file, hIdx]
  have dF1 : F ≠ F ++ ".1" := self_ne_append F ".1" (by decide)
  have dF2 : F ≠ F ++ ".2" := self_ne_append F ".2" (by decide)
  have dF3 : F ≠ F ++ ".3" := self_ne_append F ".3" (by decide)
  have d12 : F ++ ".1" ≠ F ++ ".2" := ne_append_of_ne F (by decide)
  have d21 : F ++ ".2" ≠ F ++ ".1" := d12.symm
  have d31 : F ++ ".3" ≠ F ++ ".1" := ne_append_of_ne F (by decide)
  have d32 : F ++ ".3" ≠ F ++ ".2" := ne_append_of_ne F (by decide)
  have hfs1 : ∀ m, rotateStep F 3 fs 2 m = if m = F ++ ".2" then none else fs m :=
    rotateStep2_eval F fs
  have h2none : rotateStep F 3 fs 2 (F ++ ".2") = none := by
    rw [hfs1]
    simp
  have hfs2 : ∀ m, rotateStep F 3 (rotateStep F 3 fs 2) 1 m =
      if m = F ++ ".2" then rotateStep F 3 fs 2 (F ++ ".1")
      else if m = F ++ ".1" then none else rotateStep F 3 fs 2 m :=
    rotateStep1_eval F (rotateStep F 3 fs 2) h2none
  have h1none : rotateStep F 3 (rotateStep F 3 fs 2) 1 (F ++ ".1") = none := by
    rw [hfs2]
    simp [d12]
  have hg : ∀ m, DeviceMonitor.rotate_log_file fs F 3 m =
      if m = F ++ ".1" then rotateStep F 3 (rotateStep F 3 fs 2) 1 F
      else if m = F then none
      else rotateStep F 3 (rotateStep F 3 fs 2) 1 m := by
    intro m
    rw [hrot]
    exact rotateFinal_eval F (rotateStep F 3 (rotateStep F 3 fs 2) 1) h1none m
  refine ⟨?_, ?_, ?_, ?_, ?_⟩
  · rw [hg]
    simp [dF1]
  · rw [hg]
    simp [hfs2, hfs1, dF1, dF2]
  · rw [hg]
    simp [hfs2, hfs1, d21, dF2.symm, d12]
  · rw [hg]
    simp [hfs2, hfs1, d31, dF3.symm, d32]
  · intro n hn hn1 hn2
    rw [hg]
    simp [hfs2, hfs1, hn, hn1, hn2]

/-- C5 counterexample: a pre-existing log file that is valid JSON but not
an array (here the number `5`) is not reset to an empty array: the
`data = [data] if content else []` line wraps it, so one append yields the
two-element array `[5, r1]` instead of `[r1]`. -/
theorem c5_counterexample :
    DeviceMonitor.logAppends (FileContent.jsonVal (Json.num 5)) [Json.str "r1"] =
      FileContent.jsonVal (Json.arr [Json.num 5, Json.str "r1"]) ∧
    readLogData (DeviceMonitor.logAppends (FileContent.jsonVal (Json.num 5))
      [Json.str "r1"]) ≠ [Json.str "r1"] := by
  constructor
  · rfl
  · intro h
    rw [show readLogData (DeviceMonitor.logAppends (FileContent.jsonVal (Json.num 5))
      [Json.str "r1"]) = [Json.num 5, Json.str "r1"] from rfl] at h
    simp at h

/-- C5 (amended): an absent, whitespace-only or undecodable log file is
reset to an empty array, and N appends starting there read back as exactly
the N appended readings in append order; a file that parses to a
non-array value is instead wrapped as a one-element array, so those N
appends read back as that value followed by the N readings.  In general,
reading back after any sequence of appends yields the initial read result
followed by the appended readings in order. -/
theorem c5_log_append_order :
    (readLogData FileContent.absent = [] ∧
     readLogData FileContent.blank = [] ∧
     (∀ raw, readLogData (FileContent.corrupt raw) = [])) ∧
    (∀ (fc : FileContent) (rs : List Json),
      readLogData (DeviceMonitor.logAppends fc rs) = readLogData fc ++ rs) ∧
    ((∀ s, readLogData (FileContent.jsonVal (Json.str s)) = [Json.str s]) ∧
     (∀ n, readLogData (FileContent.jsonVal (Json.num n)) = [Json.num n]) ∧
     (∀ fields, readLogData (FileContent.jsonVal (Json.obj fields)) = [Json.obj fields]) ∧
     readLogData (FileContent.jsonVal Json.null) = [Json.null]) := by
  refine ⟨⟨rfl, rfl, fun raw => rfl⟩, ?_, fun s => rfl, fun n => rfl, fun fields => rfl, rfl⟩
  intro fc rs
  induction rs generalizing fc with
  | nil => simp [DeviceMonitor.logAppends]
  | cons r rs ih =>
      show readLogData (DeviceMonitor.logAppends (DeviceMonitor.log_reading fc r) rs) = _
      rw [ih]
      show (readLogData fc ++ [r]) ++ rs = readLogData fc ++ (r :: rs)
      simp

/-- C6: the pause computed after each monitor cycle is
`max(0.1, period - elapsed)`: it is positive (so never negative), equals
the 0.1 floor whenever the cycle took at least the whole period, and in
particular a 2.0 s period with 2.5 s of work sleeps exactly 0.1. -/
theorem c6_sleep_floor :
    (∀ period cycle_time : ℚ,
      DeviceMonitor.sleep_time period cycle_time = max (1 / 10) (period - cycle_time)) ∧
    (∀ period cycle_time : ℚ, 0 < DeviceMonitor.sleep_time period cycle_time) ∧
    (∀ period cycle_time : ℚ, period ≤ cycle_time →
      DeviceMonitor.sleep_time period cycle_time = 1 / 10) ∧
    DeviceMonitor.sleep_time 2 (5 / 2) = 1 / 10 := by
  refine ⟨fun p c => rfl, ?_, ?_, ?_⟩
  · intro p c
    calc (0 : ℚ) < 1 / 10 := by norm_num
    _ ≤ DeviceMonitor.sleep_time p c := le_max_left _ _
  · intro p c h
    unfold DeviceMonitor.sleep_time
    rw [max_eq_left (by linarith)]
  · unfold DeviceMonitor.sleep_time
    rw [max_eq_left (by norm_num)]

/-- C7: after `DeviceClient.disconnect` every one of `get_reading`,
`get_voltage`, `get_current` and `get_serial` fails with the
`ConnectionError` saying the device is not connected, whatever the driver
would have answered — the flag check precedes every driver call, so no
transport interaction happens. -/
theorem c7_disconnect_blocks_access :
    ∀ (c : ClientState) (ts : String) (v a sn dres : Except DevErr String),
      DeviceClient.get_reading (DeviceClient.disconnect c) ts v a sn =
        Except.error (DevErr.connectionError "Устройство не подключено") ∧
      DeviceClient.get_voltage (DeviceClient.disconnect c) dres =
        Except.error (DevErr.connectionError "Устройство не подключено") ∧
      DeviceClient.get_current (DeviceClient.disconnect c) dres =
        Except.error (DevErr.connectionError "Устройство не подключено") ∧
      DeviceClient.get_serial (DeviceClient.disconnect c) dres =
        Except.error (DevErr.connectionError "Устройство не подключено") := by
  intro c ts v a sn dres
  exact ⟨rfl, rfl, rfl, rfl⟩

/-- C8 counterexample: a timeout during a connected datagram exchange
raises `TimeoutError` through the `except socket.timeout` clause, which
does not touch the connection flag — `is_connected` stays `true`, so not
every failure raised during an exchange leaves the transport marked
Disconnected. -/
theorem c8_counterexample :
    (UDPDriver.send_command udpConn "GET_V" UdpWire.recvTimeout).1.is_connected = true ∧
    (UDPDriver.send_command udpConn "GET_V" UdpWire.recvTimeout).2 =
      Except.error (DevErr.timeoutError "Таймаут при выполнении команды: GET_V") := by
  exact ⟨rfl, rfl⟩

/-- C8 (amended): on the datagram transport only the failures that reach
the blanket `except Exception` clause — a socket error or a failed
response validation — clear `is_connected`; a timeout raises but leaves
the flag set.  On the serial transport only a `SerialException` clears
the flag; any other failure raised during the exchange leaves it set. -/
theorem c8_flag_clearing :
    (∀ (h : String) (p : Nat) (command msg : String),
      (UDPDriver.send_command ⟨h, p, true, true⟩ command
        (UdpWire.sockErr msg)).1.is_connected = false) ∧
    (∀ (h : String) (p : Nat) (command raw : String),
      UDPDriver.validate_response command (pyStrip raw) = false →
      (UDPDriver.send_command ⟨h, p, true, true⟩ command
        (UdpWire.datagram raw)).1.is_connected = false) ∧
    (∀ (h : String) (p : Nat) (command : String),
      (UDPDriver.send_command ⟨h, p, true, true⟩ command
        UdpWire.recvTimeout).1.is_connected = true ∧
      exceptOk (UDPDriver.send_command ⟨h, p, true, true⟩ command
        UdpWire.recvTimeout).2 = false) ∧
    (∀ (pt : String) (b : Nat) (command msg : String),
      (SerialDriver.send_command ⟨pt, b, true, true⟩ command
        (SerialWire.serialExn msg)).1.is_connected = false ∧
      exceptOk (SerialDriver.send_command ⟨pt, b, true, true⟩ command
        (SerialWire.serialExn msg)).2 = false) ∧
    (∀ (pt : String) (b : Nat) (command msg : String),
      (SerialDriver.send_command ⟨pt, b, true, true⟩ command
        (SerialWire.otherExn msg)).1.is_connected = true ∧
      exceptOk (SerialDriver.send_command ⟨pt, b, true, true⟩ command
        (SerialWire.otherExn msg)).2 = false) := by
  refine ⟨fun h p command msg => rfl, ?_, fun h p command => ⟨rfl, rfl⟩,
    fun pt b command msg => ⟨rfl, rfl⟩, fun pt b command msg => ⟨rfl, rfl⟩⟩
  intro h p command raw hv
  simp [UDPDriver.send_command, hv]

/-- C9 counterexample: when the probe of the datagram `connect` gets no
reply within the timeout, the raised failure is a `ConnectionError`
(`except socket.timeout` inside `connect` raises `ConnectionError`, then
the outer blanket clause wraps it again), not a `TimeoutError` as the
claim states. -/
theorem c9_counterexample :
    (UDPDriver.connect udpConn UdpConnWire.probeTimeout).2 =
      Except.error (DevErr.connectionError
        ("Ошибка подключения: " ++ "Таймаут подключения к " ++
          udpConn.host ++ ":" ++ toString udpConn.port)) ∧
    ¬ ∃ m, (UDPDriver.connect udpConn UdpConnWire.probeTimeout).2 =
      Except.error (DevErr.timeoutError m) := by
  constructor
  · rfl
  · rintro ⟨m, hm⟩
    rw [show (UDPDriver.connect udpConn UdpConnWire.probeTimeout).2 =
      Except.error (DevErr.connectionError
        ("Ошибка подключения: " ++ "Таймаут подключения к " ++
          udpConn.host ++ ":" ++ toString udpConn.port)) from rfl] at hm
    simp at hm

/-- C9 (amended): the datagram `connect` is a protocol probe — it returns
`True` exactly when a reply arrives that strips to a non-empty string
starting with `S_`; when no reply arrives within the timeout it raises a
`ConnectionError` whose message records the timeout (never a silent
`False`, and not a `TimeoutError`); and no outcome whatsoever returns
`False`. -/
theorem c9_connect_probe :
    (∀ (s : UDPState) (raw : String),
      (UDPDriver.connect s (UdpConnWire.datagram raw)).2 = Except.ok true ↔
        ((!(pyStrip raw == "")) && pyStartsWith (pyStrip raw) "S_") = true) ∧
    (∀ s : UDPState,
      (UDPDriver.connect s UdpConnWire.probeTimeout).2 =
        Except.error (DevErr.connectionError
          ("Ошибка подключения: " ++ "Таймаут подключения к " ++
            s.host ++ ":" ++ toString s.port))) ∧
    (∀ (s : UDPState) (w : UdpConnWire),
      (UDPDriver.connect s w).2 ≠ Except.ok false) := by
  refine ⟨?_, fun s => rfl, ?_⟩
  · intro s raw
    constructor
    · intro h
      by_cases hc : ((!(pyStrip raw == "")) && pyStartsWith (pyStrip raw) "S_") = true
      · exact hc
      · simp only [UDPDriver.connect, hc] at h
        simp at h
    · intro hc
      simp only [UDPDriver.connect, hc]
      simp
  · intro s w
    cases w with
    | createErr msg => simp [UDPDriver.connect]
    | probeTimeout => simp [UDPDriver.connect]
    | probeErr msg => simp [UDPDriver.connect]
    | datagram raw =>
        by_cases hc : ((!(pyStrip raw == "")) && pyStartsWith (pyStrip raw) "S_") = true
        · simp [UDPDriver.connect, hc]
        · simp [UDPDriver.connect, hc]

/-- C10: `DeviceClient.connect` can never return `False`: both drivers
either return `True` or raise, and the client assigns the driver result
to its flag and returns it, wrapping any raised failure into a
`ConnectionError` — so its outcome is `True` with the flag set, or a
raised `ConnectionError`. -/
theorem c10_connect_never_false :
    (∀ (s : UDPState) (w : UdpConnWire),
      (UDPDriver.connect s w).2 ≠ Except.ok false) ∧
    (∀ (s : SerialState) (w : SerialConnWire),
      (SerialDriver.connect s w).2 ≠ Except.ok false) ∧
    (∀ (c : ClientState) (s : UDPState) (w : UdpConnWire),
      ((DeviceClient.connect c (UDPDriver.connect s w).2).2 = Except.ok true ∧
        (DeviceClient.connect c (UDPDriver.connect s w).2).1.is_connected = true) ∨
      ∃ m, (DeviceClient.connect c (UDPDriver.connect s w).2).2 =
        Except.error (DevErr.connectionError m)) ∧
    (∀ (c : ClientState) (s : SerialState) (w : SerialConnWire),
      ((DeviceClient.connect c (SerialDriver.connect s w).2).2 = Except.ok true ∧
        (DeviceClient.connect c (SerialDriver.connect s w).2).1.is_connected = true) ∨
      ∃ m, (DeviceClient.connect c (SerialDriver.connect s w).2).2 =
        Except.error (DevErr.connectionError m)) := by
  refine ⟨?_, ?_, ?_, ?_⟩
  · intro s w
    cases w with
    | createErr msg => simp [UDPDriver.connect]
    | probeTimeout => simp [UDPDriver.connect]
    | probeErr msg => simp [UDPDriver.connect]
    | datagram raw =>
        by_cases hc : ((!(pyStrip raw == "")) && pyStartsWith (pyStrip raw) "S_") = true
        · simp [UDPDriver.connect, hc]
        · simp [UDPDriver.connect, hc]
  · intro s w
    cases w with
    | opened => simp [SerialDriver.connect]
    | serialExn msg => simp [SerialDriver.connect]
    | otherExn msg => simp [SerialDriver.connect]
  · intro c s w
    cases w with
    | createErr msg => exact Or.inr ⟨_, rfl⟩
    | probeTimeout => exact Or.inr ⟨_, rfl⟩
    | probeErr msg => exact Or.inr ⟨_, rfl⟩
    | datagram raw =>
        by_cases hc : ((!(pyStrip raw == "")) && pyStartsWith (pyStrip raw) "S_") = true
        · left
          constructor
          · simp [UDPDriver.connect, hc, DeviceClient.connect]
          · simp [UDPDriver.connect, hc, DeviceClient.connect]
        · right
          refine ⟨"Ошибка подключения: " ++ ("Ошибка подключения: " ++
            "Неверный ответ от устройства: " ++ pyStrip raw), ?_⟩
          simp [UDPDriver.connect, hc, DeviceClient.connect, DevErr.str]
  · intro c s w
    cases w with
    | opened => exact Or.inl ⟨rfl, rfl⟩
    | serialExn msg => exact Or.inr ⟨_, rfl⟩
    | otherExn msg => exact Or.inr ⟨_, rfl⟩
